import Mathlib

/-!
Verification of the pytest-mypy plugin (`src/pytest_mypy.py`).

The plugin is embedded shallowly: the pytest/mypy effects (terminal writes,
the single `mypy.api.run` invocation, exceptions raised by `runtest`) become
explicit data, and the hook functions become pure Lean functions over that
data.  `os.path.abspath` is an external library function and is modelled as
an arbitrary function parameter `abspath : String → String`.
-/

set_option maxRecDepth 4096

namespace PytestMypy

/-- The three command-line options registered by `pytest_addoption`:
`--mypy`, `--mypy-files`, `--mypy-ignore-missing-imports`. -/
structure Config where
  mypy : Bool
  mypy_files : Bool
  mypy_ignore_missing_imports : Bool
deriving Repr, DecidableEq

/-- A collected path as seen by `pytest_collect_file`: its filesystem path
(`str(path)` / `item.fspath`) and its extension (`path.ext`, which for
`py.path` includes the leading dot, e.g. `".py"`). -/
structure Path where
  fspath : String
  ext : String
deriving Repr, DecidableEq

/-- The class `MypyFileItem`: a collected file together with its `mypy_errors` list
(initialised empty in `__init__`, appended to by `pytest_runtestloop`). -/
structure MypyFileItem where
  fspath : String
  mypy_errors : List String
deriving Repr, DecidableEq

/-- The class `MypyStatusItem`: holds `mypy_status`, `None` until `pytest_runtestloop`
stores the mypy exit status into it. -/
structure MypyStatusItem where
  mypy_status : Option Int
deriving Repr, DecidableEq

/-- A pytest item added by the plugin (`session.items` only ever holds these
two kinds of plugin items in this model). -/
inductive Item where
  | file (it : MypyFileItem)
  | status (it : MypyStatusItem)
deriving Repr, DecidableEq

/-- An exception as seen by `repr_failure`'s `excinfo`:
either the plugin's `MypyError` (carrying `args[0]`), an `AssertionError`
(from the `assert` in `MypyStatusItem.runtest`), or any other exception. -/
inductive Excinfo where
  | mypyError (msg : String)
  | assertionError
  | other (e : String)
deriving Repr, DecidableEq

/-- The outcome of calling `runtest` on an item: either an exception was
raised, or the call returned normally, possibly after emitting warnings. -/
inductive RunResult where
  | raised (e : Excinfo)
  | passed (warnings : List String)
deriving Repr, DecidableEq

/-- Colors passed to `terminal.write_line`. -/
inductive Color where
  | red
  | green
deriving Repr, DecidableEq

/-- Terminal output events produced by `pytest_runtestloop`:
`terminal.write(s)` and `terminal.write_line(s, **color)`. -/
inductive TermEvent where
  | write (s : String)
  | writeLine (s : String) (c : Color)
deriving Repr, DecidableEq

/-- The hook `pytest_collect_file`: return a `MypyFileItem` when the path has the
`.py` extension and `any([option.mypy, option.mypy_ignore_missing_imports,
option.mypy_files])` holds. -/
def pytest_collect_file (cfg : Config) (p : Path) : Option Item :=
  if p.ext = ".py" ∧ (cfg.mypy ∨ cfg.mypy_ignore_missing_imports ∨ cfg.mypy_files) then
    some (Item.file { fspath := p.fspath, mypy_errors := [] })
  else
    none

/-- Insert with Python-`dict` semantics: an existing key keeps its position
but has its value overwritten; a new key is appended. -/
def dictInsert (d : List (String × Nat)) (k : String) (v : Nat) : List (String × Nat) :=
  if d.any (fun q => q.1 = k) then
    d.map (fun q => if q.1 = k then (k, v) else q)
  else
    d ++ [(k, v)]

/-- Lookup in the dict (keys are unique by construction of `dictInsert`). -/
def dictFind (d : List (String × Nat)) (k : String) : Option Nat :=
  (d.find? (fun q => q.1 = k)).map (fun q => q.2)

/-- The per-item entries of the dict comprehension in `_mypy_file_items`:
for each `MypyFileItem` (referenced by its index in the list), the pair
`(os.path.abspath(str(item.fspath)), item)`. -/
def fileEntries (abspath : String → String) (items : List Item) :
    List (String × Nat) :=
  items.enum.filterMap (fun q =>
    match q.2 with
    | Item.file f => some (abspath f.fspath, q.1)
    | Item.status _ => none)

/-- The dict comprehension `_mypy_file_items(items)`:
`{os.path.abspath(str(item.fspath)): item for item in items
  if isinstance(item, MypyFileItem)}`, with items represented by their index
in the list. -/
def _mypy_file_items (abspath : String → String) (items : List Item) :
    List (String × Nat) :=
  (fileEntries abspath items).foldl (fun d q => dictInsert d q.1 q.2) []

/-- The hook `pytest_collection_modifyitems`: append a fresh
`MypyStatusItem` when `--mypy-files` is set and `_mypy_file_items(items)` is
truthy (non-empty). -/
def pytest_collection_modifyitems (abspath : String → String) (cfg : Config)
    (items : List Item) : List Item :=
  if cfg.mypy_files ∧ _mypy_file_items abspath items ≠ [] then
    items ++ [Item.status { mypy_status := none }]
  else
    items

/-- Break a character list at the first colon: `none` when no colon occurs,
otherwise the characters before and after it. -/
def breakAtColon : List Char → Option (List Char × List Char)
  | [] => none
  | x :: xs =>
      if x = ':' then some ([], xs)
      else
        match breakAtColon xs with
        | none => none
        | some (a, b) => some (x :: a, b)

/-- Python `str.partition(':')` restricted to the two components the code
uses: the text before the first colon and the text after it (a line without
a colon yields `(line, "")`, exactly as `partition` does). -/
def partitionColon (s : String) : String × String :=
  match breakAtColon s.data with
  | none => (s, "")
  | some (a, b) => (String.mk a, String.mk b)

/-- Python `str.split('\n')` on a character list: the segments between
newline characters (an empty input gives one empty segment, as in Python).
-/
def splitNewlines : List Char → List (List Char)
  | [] => [[]]
  | x :: xs =>
      if x = '\n' then [] :: splitNewlines xs
      else
        match splitNewlines xs with
        | [] => [[x]]
        | y :: ys => (x :: y) :: ys

/-- Python `stdout.split('\n')` as a list of strings. -/
def splitLines (s : String) : List String :=
  (splitNewlines s.data).map String.mk

/-- Append an error message to the `mypy_errors` of the file item at index
`i` (the mutation `item.mypy_errors.append(error)`). -/
def appendError (items : List Item) (i : Nat) (e : String) : List Item :=
  match items[i]? with
  | some (Item.file f) =>
      items.set i (Item.file { f with mypy_errors := f.mypy_errors ++ [e] })
  | some (Item.status _) => items
  | none => items

/-- One iteration of the stdout loop in `pytest_runtestloop`: skip empty
lines, partition at the first colon, route the remainder to the matching
file item or keep the whole line as unmatched. -/
def processLine (abspath : String → String) (d : List (String × Nat))
    (acc : List Item × List String) (line : String) : List Item × List String :=
  if line = "" then acc
  else
    let pe := partitionColon line
    match dictFind d (abspath pe.1) with
    | some i => (appendError acc.1 i pe.2, acc.2)
    | none => (acc.1, acc.2 ++ [line])

/-- The whole stdout loop: fold `processLine` over `stdout.split('\n')`. -/
def processStdout (abspath : String → String) (d : List (String × Nat))
    (items : List Item) (stdout : String) : List Item × List String :=
  (splitLines stdout).foldl (processLine abspath d) (items, [])

/-- Python `any()` over a list of strings: true iff some element is truthy
(non-empty). This is `any(unmatched_lines)` in `pytest_runtestloop`. -/
def anyTruthy (l : List String) : Bool :=
  l.any (fun s => s ≠ "")

/-- Effect of `pytest_configure` on the module-global `mypy_argv`: append
`--ignore-missing-imports` when the corresponding flag is set. -/
def configuredArgv (cfg : Config) : List String :=
  if cfg.mypy_ignore_missing_imports then ["--ignore-missing-imports"] else []

/-- Result of one `pytest_runtestloop` call: the session items after the
loop (statuses stored, errors attributed), the unmatched output lines, the
terminal events in order, and the argv of every `mypy.api.run` invocation
performed. -/
structure LoopResult where
  items : List Item
  unmatched : List String
  events : List TermEvent
  invocations : List (List String)
deriving Repr, DecidableEq

/-- The output of the external checker (`mypy.api.run`): stdout, stderr and
the integer exit status. The call is external, so its output is an input of
the model. -/
structure CheckerOutput where
  stdout : String
  stderr : String
  status : Int
deriving Repr, DecidableEq

/-- Store the mypy exit status in a `MypyStatusItem` (the loop
`for item in session.items: if isinstance(item, MypyStatusItem):
item.mypy_status = status`); file items are untouched. -/
def setStatus (status : Int) : Item → Item
  | Item.status _ => Item.status { mypy_status := some status }
  | Item.file f => Item.file f

/-- The list `[str(item.fspath) for item in mypy_file_items.values()]`:
dict values in insertion order, dereferenced through the item list. -/
def filesArg (items : List Item) (d : List (String × Nat)) : List String :=
  d.filterMap (fun q =>
    match items[q.2]? with
    | some (Item.file f) => some f.fspath
    | _ => none)

/-- The `'\nRunning {command}{on_files}... '` progress message. -/
def runningMessage (cfg : Config) (files : List String) : String :=
  "\nRunning " ++ String.intercalate " " ("mypy" :: configuredArgv cfg) ++
    (if files = [] then ""
     else " on " ++ toString files.length ++ " files") ++ "... "

/-- The `'done with status {status}\n'` progress message. -/
def doneMessage (status : Int) : String :=
  "done with status " ++ toString status ++ "\n"

/-- The terminal events produced by the `if any(unmatched_lines):` block:
the unmatched lines joined with newlines, red on a non-zero status and
green otherwise. -/
def unmatchedEvents (status : Int) (un : List String) : List TermEvent :=
  if anyTruthy un then
    [TermEvent.writeLine (String.intercalate "\n" un)
      (if status ≠ 0 then Color.red else Color.green)]
  else []

/-- The terminal events produced by the `if stderr:` block. -/
def stderrEvents (stderr : String) : List TermEvent :=
  if stderr ≠ "" then [TermEvent.writeLine stderr Color.red] else []

/-- The hook `pytest_runtestloop`: run mypy once on the collected
`MypyFileItem`s (if any), store the exit status in every `MypyStatusItem`,
attribute stdout lines, and surface unmatched lines and stderr on the
terminal. -/
def pytest_runtestloop (abspath : String → String) (cfg : Config)
    (out : CheckerOutput) (items : List Item) : LoopResult :=
  let d := _mypy_file_items abspath items
  if d = [] then
    { items := items, unmatched := [], events := [], invocations := [] }
  else
    let files : List String :=
      if cfg.mypy_files then [] else filesArg items d
    let items1 := items.map (setStatus out.status)
    let pr := processStdout abspath d items1 out.stdout
    { items := pr.1
    , unmatched := pr.2
    , events := [TermEvent.write (runningMessage cfg files),
        TermEvent.write (doneMessage out.status)] ++
        unmatchedEvents out.status pr.2 ++ stderrEvents out.stderr
    , invocations := [configuredArgv cfg ++ files] }

/-- The text of the `MypyWarning` emitted by `MypyFileItem.runtest` when no
errors were attributed but `--mypy-files` means the file may not have been
checked. -/
def mypyFilesWarningText : String :=
  "No mypy errors were detected in this file," ++
  " but since --mypy-files does not require" ++
  " mypy to check files collected by pytest," ++
  " pytest-mypy cannot be sure that it was" ++
  " actually checked."

/-- The method `MypyFileItem.runtest`: raise `MypyError('\n'.join(self.mypy_errors))`
when any errors were attributed, otherwise warn under `--mypy-files`. -/
def MypyFileItem.runtest (cfg : Config) (it : MypyFileItem) : RunResult :=
  if it.mypy_errors ≠ [] then
    RunResult.raised (Excinfo.mypyError (String.intercalate "\n" it.mypy_errors))
  else if cfg.mypy_files then
    RunResult.passed [mypyFilesWarningText]
  else
    RunResult.passed []

/-- The method `MypyStatusItem.runtest`: `assert self.mypy_status is not None`, then
raise `MypyError` when the stored status is non-zero (truthy). -/
def MypyStatusItem.runtest (it : MypyStatusItem) : RunResult :=
  match it.mypy_status with
  | none => RunResult.raised Excinfo.assertionError
  | some s =>
      if s ≠ 0 then
        RunResult.raised
          (Excinfo.mypyError ("mypy exited with status " ++ toString s ++ "."))
      else
        RunResult.passed []

/-- Dispatch of `runtest` over the two item kinds. -/
def Item.runtest (cfg : Config) : Item → RunResult
  | Item.file f => MypyFileItem.runtest cfg f
  | Item.status s => MypyStatusItem.runtest s

/-- The method `MypyItem.repr_failure`: a `MypyError` is rendered as its bare `args[0]`
message; any other exception is rendered by `super().repr_failure`,
modelled as an arbitrary renderer `superRepr`. -/
def MypyItem.repr_failure (superRepr : Excinfo → String) : Excinfo → String
  | Excinfo.mypyError msg => msg
  | e => superRepr e

/-- A full session: collect every path, run `pytest_collection_modifyitems`,
then `pytest_runtestloop`. -/
def runSession (abspath : String → String) (cfg : Config)
    (paths : List Path) (out : CheckerOutput) : LoopResult :=
  let collected := paths.filterMap (pytest_collect_file cfg)
  let items := pytest_collection_modifyitems abspath cfg collected
  pytest_runtestloop abspath cfg out items

/-- The observable outcome of a session: the `runtest` result of every item
in order, plus the terminal events. -/
def sessionOutcomes (abspath : String → String) (cfg : Config)
    (paths : List Path) (out : CheckerOutput) :
    List RunResult × List TermEvent :=
  let r := runSession abspath cfg paths out
  (r.items.map (Item.runtest cfg), r.events)

/-- Whether some aggregate status item among `items` fails its `runtest`. -/
def hasFailingStatusItem (items : List Item) : Bool :=
  items.any (fun it =>
    match it with
    | Item.status s =>
        match MypyStatusItem.runtest s with
        | RunResult.raised _ => true
        | RunResult.passed _ => false
    | Item.file _ => false)

/-- Sample canonicalization function used in concrete witnesses (a crude
stand-in for `os.path.abspath` with working directory `/cwd`). -/
def absW (s : String) : String :=
  match s.data with
  | '/' :: _ => s
  | _ => "/cwd/" ++ s

theorem dictInsert_ne_nil (d : List (String × Nat)) (k : String) (v : Nat) :
    dictInsert d k v ≠ [] := by
  unfold dictInsert
  split
  · rename_i h
    intro hmap
    rw [List.map_eq_nil_iff] at hmap
    subst hmap
    simp at h
  · simp

theorem foldl_dictInsert_ne_nil (l : List (String × Nat))
    (d : List (String × Nat)) (hd : d ≠ []) :
    l.foldl (fun d q => dictInsert d q.1 q.2) d ≠ [] := by
  induction l generalizing d with
  | nil => simpa using hd
  | cons x xs ih => exact ih _ (dictInsert_ne_nil _ _ _)

theorem fileEntries_eq_nil_iff (abspath : String → String) (items : List Item) :
    fileEntries abspath items = [] ↔ ∀ f, Item.file f ∉ items := by
  unfold fileEntries
  rw [List.filterMap_eq_nil_iff]
  constructor
  · intro h f hf
    have hm : Item.file f ∈ items.enum.map Prod.snd := by
      rw [List.enum_map_snd]
      exact hf
    rcases List.mem_map.mp hm with ⟨q, hq, hsnd⟩
    have := h q hq
    rw [hsnd] at this
    simp at this
  · intro h q hq
    cases hq2 : q.2 with
    | file f =>
        exfalso
        apply h f
        have : q.2 ∈ items.enum.map Prod.snd := List.mem_map_of_mem _ hq
        rw [List.enum_map_snd, hq2] at this
        exact this
    | status s => rfl

theorem mypy_file_items_ne_nil_iff (abspath : String → String)
    (items : List Item) :
    _mypy_file_items abspath items ≠ [] ↔ ∃ f, Item.file f ∈ items := by
  unfold _mypy_file_items
  constructor
  · intro h
    by_contra hn
    push_neg at hn
    have hnil : fileEntries abspath items = [] :=
      (fileEntries_eq_nil_iff _ _).mpr hn
    rw [hnil] at h
    simp at h
  · rintro ⟨f, hf⟩
    have hne : fileEntries abspath items ≠ [] := by
      intro h0
      exact (fileEntries_eq_nil_iff _ _).mp h0 f hf
    cases hE : fileEntries abspath items with
    | nil => exact absurd hE hne
    | cons x xs =>
        rw [List.foldl_cons]
        exact foldl_dictInsert_ne_nil xs _ (dictInsert_ne_nil _ _ _)

theorem appendError_getElem_status (items : List Item) (i : Nat) (e : String)
    (j : Nat) (s : MypyStatusItem) :
    ((appendError items i e)[j]? = some (Item.status s)) ↔
      items[j]? = some (Item.status s) := by
  unfold appendError
  cases hg : items[i]? with
  | none => rfl
  | some it =>
      cases it with
      | status s0 => rfl
      | file f =>
          rw [List.getElem?_set]
          split
        -- i = j case
          · rename_i hij
            subst hij
            split
            · simp [hg]
            · rename_i hlt
              exfalso
              exact hlt (List.getElem?_eq_some.mp hg).1
          · rfl

theorem processLine_getElem_status (abspath : String → String)
    (d : List (String × Nat)) (acc : List Item × List String) (line : String)
    (j : Nat) (s : MypyStatusItem) :
    ((processLine abspath d acc line).1[j]? = some (Item.status s)) ↔
      acc.1[j]? = some (Item.status s) := by
  unfold processLine
  split
  · rfl
  · cases hf : dictFind d (abspath (partitionColon line).1) with
    | some i =>
        simp only [hf]
        exact appendError_getElem_status _ _ _ _ _
    | none => simp only [hf]

theorem foldl_processLine_getElem_status (abspath : String → String)
    (d : List (String × Nat)) (lines : List String)
    (acc : List Item × List String) (j : Nat) (s : MypyStatusItem) :
    ((lines.foldl (processLine abspath d) acc).1[j]? = some (Item.status s)) ↔
      acc.1[j]? = some (Item.status s) := by
  induction lines generalizing acc with
  | nil => exact Iff.rfl
  | cons x xs ih =>
      rw [List.foldl_cons, ih]
      exact processLine_getElem_status _ _ _ _ _ _

theorem processStdout_getElem_status (abspath : String → String)
    (d : List (String × Nat)) (items : List Item) (stdout : String)
    (j : Nat) (s : MypyStatusItem) :
    ((processStdout abspath d items stdout).1[j]? = some (Item.status s)) ↔
      items[j]? = some (Item.status s) := by
  unfold processStdout
  exact foldl_processLine_getElem_status _ _ _ _ _ _

theorem processLine_unmatched_ne_empty (abspath : String → String)
    (d : List (String × Nat)) (acc : List Item × List String) (line : String)
    (h : ∀ x ∈ acc.2, x ≠ "") :
    ∀ x ∈ (processLine abspath d acc line).2, x ≠ "" := by
  unfold processLine
  split
  · exact h
  · rename_i hline
    cases hf : dictFind d (abspath (partitionColon line).1) with
    | some i =>
        simp only [hf]
        exact h
    | none =>
        simp only [hf]
        intro x hx
        rcases List.mem_append.mp hx with hx1 | hx1
        · exact h x hx1
        · rw [List.mem_singleton.mp hx1]
          exact hline

theorem foldl_processLine_unmatched_ne_empty (abspath : String → String)
    (d : List (String × Nat)) (lines : List String)
    (acc : List Item × List String) (h : ∀ x ∈ acc.2, x ≠ "") :
    ∀ x ∈ (lines.foldl (processLine abspath d) acc).2, x ≠ "" := by
  induction lines generalizing acc with
  | nil => exact h
  | cons y ys ih =>
      rw [List.foldl_cons]
      exact ih _ (processLine_unmatched_ne_empty _ _ _ _ h)

theorem processStdout_unmatched_ne_empty (abspath : String → String)
    (d : List (String × Nat)) (items : List Item) (stdout : String) :
    ∀ x ∈ (processStdout abspath d items stdout).2, x ≠ "" := by
  unfold processStdout
  exact foldl_processLine_unmatched_ne_empty _ _ _ _ (by simp)

theorem anyTruthy_of_ne_nil (l : List String) (hne : l ≠ [])
    (h : ∀ x ∈ l, x ≠ "") : anyTruthy l = true := by
  cases l with
  | nil => exact absurd rfl hne
  | cons x xs =>
      apply List.any_eq_true.mpr
      exact ⟨x, List.mem_cons_self _ _, by simpa using h x (List.mem_cons_self _ _)⟩

theorem pytest_runtestloop_of_ne_nil (abspath : String → String) (cfg : Config)
    (out : CheckerOutput) (items : List Item)
    (h : _mypy_file_items abspath items ≠ []) :
    pytest_runtestloop abspath cfg out items =
      { items := (processStdout abspath (_mypy_file_items abspath items)
          (items.map (setStatus out.status)) out.stdout).1
      , unmatched := (processStdout abspath (_mypy_file_items abspath items)
          (items.map (setStatus out.status)) out.stdout).2
      , events := [TermEvent.write (runningMessage cfg
            (if cfg.mypy_files then []
             else filesArg items (_mypy_file_items abspath items))),
          TermEvent.write (doneMessage out.status)] ++
          unmatchedEvents out.status
            (processStdout abspath (_mypy_file_items abspath items)
              (items.map (setStatus out.status)) out.stdout).2 ++
          stderrEvents out.stderr
      , invocations := [configuredArgv cfg ++
          (if cfg.mypy_files then []
           else filesArg items (_mypy_file_items abspath items))] } := by
  unfold pytest_runtestloop
  rw [if_neg h]

theorem collect_mem_file (cfg : Config) (paths : List Path) (it : Item)
    (h : it ∈ paths.filterMap (pytest_collect_file cfg)) :
    ∃ f, it = Item.file f := by
  rcases List.mem_filterMap.mp h with ⟨p, _, hcol⟩
  unfold pytest_collect_file at hcol
  split at hcol
  · exact ⟨_, (Option.some.inj hcol).symm⟩
  · exact absurd hcol (by simp)

theorem mem_file_modifyitems (abspath : String → String) (cfg : Config)
    (items : List Item) (f : MypyFileItem) :
    Item.file f ∈ pytest_collection_modifyitems abspath cfg items ↔
      Item.file f ∈ items := by
  unfold pytest_collection_modifyitems
  split
  · simp
  · exact Iff.rfl

theorem runtestloop_items_eq (abspath : String → String) (cfg : Config)
    (out : CheckerOutput) (items : List Item)
    (h : _mypy_file_items abspath items ≠ []) :
    (pytest_runtestloop abspath cfg out items).items =
      (processStdout abspath (_mypy_file_items abspath items)
        (items.map (setStatus out.status)) out.stdout).1 := by
  rw [pytest_runtestloop_of_ne_nil abspath cfg out items h]

theorem runtestloop_unmatched_eq (abspath : String → String) (cfg : Config)
    (out : CheckerOutput) (items : List Item)
    (h : _mypy_file_items abspath items ≠ []) :
    (pytest_runtestloop abspath cfg out items).unmatched =
      (processStdout abspath (_mypy_file_items abspath items)
        (items.map (setStatus out.status)) out.stdout).2 := by
  rw [pytest_runtestloop_of_ne_nil abspath cfg out items h]

theorem runtestloop_events_eq (abspath : String → String) (cfg : Config)
    (out : CheckerOutput) (items : List Item)
    (h : _mypy_file_items abspath items ≠ []) :
    (pytest_runtestloop abspath cfg out items).events =
      [TermEvent.write (runningMessage cfg
          (if cfg.mypy_files then []
           else filesArg items (_mypy_file_items abspath items))),
        TermEvent.write (doneMessage out.status)] ++
        unmatchedEvents out.status
          (processStdout abspath (_mypy_file_items abspath items)
            (items.map (setStatus out.status)) out.stdout).2 ++
        stderrEvents out.stderr := by
  rw [pytest_runtestloop_of_ne_nil abspath cfg out items h]

theorem runtestloop_invocations_eq (abspath : String → String) (cfg : Config)
    (out : CheckerOutput) (items : List Item)
    (h : _mypy_file_items abspath items ≠ []) :
    (pytest_runtestloop abspath cfg out items).invocations =
      [configuredArgv cfg ++
        (if cfg.mypy_files then []
         else filesArg items (_mypy_file_items abspath items))] := by
  rw [pytest_runtestloop_of_ne_nil abspath cfg out items h]

theorem runSession_eq (abspath : String → String) (cfg : Config)
    (paths : List Path) (out : CheckerOutput) :
    runSession abspath cfg paths out =
      pytest_runtestloop abspath cfg out
        (pytest_collection_modifyitems abspath cfg
          (paths.filterMap (pytest_collect_file cfg))) := rfl

theorem status_runtest_ne_assertion (s : MypyStatusItem) (v : Int)
    (hs : s.mypy_status = some v) :
    MypyStatusItem.runtest s ≠ RunResult.raised Excinfo.assertionError := by
  unfold MypyStatusItem.runtest
  rw [hs]
  split
  · rename_i heq
    exact Option.noConfusion heq
  · split <;> simp

/-- C1: a collected file item with one or more attributed error lines fails
its `runtest` by raising `MypyError`, and `repr_failure` renders exactly the
attributed error lines joined with newlines — the generic traceback
renderer is never consulted for a `MypyError`. -/
theorem C1_file_errors_fail_and_render (cfg : Config) (it : MypyFileItem)
    (superRepr : Excinfo → String) (h : it.mypy_errors ≠ []) :
    MypyFileItem.runtest cfg it =
      RunResult.raised
        (Excinfo.mypyError (String.intercalate "\n" it.mypy_errors)) ∧
    MypyItem.repr_failure superRepr
        (Excinfo.mypyError (String.intercalate "\n" it.mypy_errors)) =
      String.intercalate "\n" it.mypy_errors := by
  refine ⟨?_, rfl⟩
  unfold MypyFileItem.runtest
  rw [if_pos h]

/-- Witness for C1 at a concrete item with two error lines. -/
theorem C1_witness :
    ({ fspath := "a.py", mypy_errors := ["3: error: bad", "5: error: worse"] } :
        MypyFileItem).mypy_errors ≠ [] ∧
    MypyFileItem.runtest
        { mypy := true, mypy_files := false, mypy_ignore_missing_imports := false }
        { fspath := "a.py", mypy_errors := ["3: error: bad", "5: error: worse"] } =
      RunResult.raised (Excinfo.mypyError
        (String.intercalate "\n" ["3: error: bad", "5: error: worse"])) ∧
    MypyItem.repr_failure (fun _ => "long traceback")
        (Excinfo.mypyError
          (String.intercalate "\n" ["3: error: bad", "5: error: worse"])) =
      String.intercalate "\n" ["3: error: bad", "5: error: worse"] := by
  have h := C1_file_errors_fail_and_render
    { mypy := true, mypy_files := false, mypy_ignore_missing_imports := false }
    { fspath := "a.py", mypy_errors := ["3: error: bad", "5: error: worse"] }
    (fun _ => "long traceback") (by decide)
  exact ⟨by decide, h.1, h.2⟩

/-- C3: each non-empty stdout line is split at its first colon; the prefix
is canonicalized with `abspath` and looked up in the mapping; on a match the
remainder is appended to that item's error list, otherwise the whole line is
kept verbatim as unmatched. Concretely, collected `a.py` with output line
`a.py:3: error: bad type` gives exactly that item the single message
`3: error: bad type`, whatever the canonicalization function is. -/
theorem C3_line_attribution (abspath : String → String)
    (d : List (String × Nat)) (items : List Item) (un : List String)
    (line : String) (hline : line ≠ "") :
    (∀ i, dictFind d (abspath (partitionColon line).1) = some i →
        processLine abspath d (items, un) line =
          (appendError items i (partitionColon line).2, un)) ∧
    (dictFind d (abspath (partitionColon line).1) = none →
        processLine abspath d (items, un) line = (items, un ++ [line])) ∧
    processStdout abspath
        (_mypy_file_items abspath
          [Item.file { fspath := "a.py", mypy_errors := [] }])
        [Item.file { fspath := "a.py", mypy_errors := [] }]
        "a.py:3: error: bad type" =
      ([Item.file { fspath := "a.py", mypy_errors := ["3: error: bad type"] }],
        []) := by
  have hd : _mypy_file_items abspath
      [Item.file { fspath := "a.py", mypy_errors := [] }] =
      [(abspath "a.py", 0)] := rfl
  have hfind : dictFind [(abspath "a.py", 0)] (abspath "a.py") = some 0 := by
    unfold dictFind
    rw [List.find?_cons_of_pos]
    · rfl
    · simp
  refine ⟨?_, ?_, ?_⟩
  · intro i hf
    unfold processLine
    rw [if_neg hline]
    simp only [hf]
  · intro hf
    unfold processLine
    rw [if_neg hline]
    simp only [hf]
  · rw [hd]
    unfold processStdout
    have hsplit : splitLines "a.py:3: error: bad type" =
        ["a.py:3: error: bad type"] := rfl
    rw [hsplit, List.foldl_cons, List.foldl_nil]
    unfold processLine
    rw [if_neg (by decide : ¬("a.py:3: error: bad type" = ""))]
    have hpe : partitionColon "a.py:3: error: bad type" =
        ("a.py", "3: error: bad type") := rfl
    simp only [hpe, hfind]
    rfl

/-- Witness for C3: the concrete example, with the sample canonicalizer. -/
theorem C3_witness :
    ("a.py:3: error: bad type" ≠ "") ∧
    processStdout absW
        (_mypy_file_items absW
          [Item.file { fspath := "a.py", mypy_errors := [] }])
        [Item.file { fspath := "a.py", mypy_errors := [] }]
        "a.py:3: error: bad type" =
      ([Item.file { fspath := "a.py", mypy_errors := ["3: error: bad type"] }],
        []) :=
  ⟨by decide,
    (C3_line_attribution absW [] [] [] "a.py:3: error: bad type" (by decide)).2.2⟩

/-- C4: a collected file item with zero attributed error lines, when
`--mypy-files` (deferring file selection to mypy) is set, passes `runtest`
while emitting the completeness warning, and raises nothing. -/
theorem C4_no_errors_warns (cfg : Config) (it : MypyFileItem)
    (herr : it.mypy_errors = []) (hflag : cfg.mypy_files = true) :
    MypyFileItem.runtest cfg it = RunResult.passed [mypyFilesWarningText] ∧
    ∀ e, MypyFileItem.runtest cfg it ≠ RunResult.raised e := by
  have h1 : MypyFileItem.runtest cfg it =
      RunResult.passed [mypyFilesWarningText] := by
    unfold MypyFileItem.runtest
    rw [herr]
    simp [hflag]
  refine ⟨h1, fun e he => ?_⟩
  rw [h1] at he
  exact RunResult.noConfusion he

/-- Witness for C4 at a concrete clean file under `--mypy-files`. -/
theorem C4_witness :
    ({ fspath := "a.py", mypy_errors := [] } : MypyFileItem).mypy_errors = [] ∧
    ({ mypy := false, mypy_files := true,
        mypy_ignore_missing_imports := false } : Config).mypy_files = true ∧
    MypyFileItem.runtest
        { mypy := false, mypy_files := true, mypy_ignore_missing_imports := false }
        { fspath := "a.py", mypy_errors := [] } =
      RunResult.passed [mypyFilesWarningText] := by
  have h := C4_no_errors_warns
    { mypy := false, mypy_files := true, mypy_ignore_missing_imports := false }
    { fspath := "a.py", mypy_errors := [] } (by decide) rfl
  exact ⟨rfl, rfl, h.1⟩

/-- C7: the attribution and result logic is a deterministic function of the
collected files, the options, and the checker output: identical inputs give
identical item outcomes and terminal events. -/
theorem C7_deterministic (abspath1 abspath2 : String → String)
    (cfg1 cfg2 : Config) (paths1 paths2 : List Path)
    (out1 out2 : CheckerOutput)
    (ha : abspath1 = abspath2) (hc : cfg1 = cfg2) (hp : paths1 = paths2)
    (ho : out1 = out2) :
    sessionOutcomes abspath1 cfg1 paths1 out1 =
      sessionOutcomes abspath2 cfg2 paths2 out2 := by
  subst ha
  subst hc
  subst hp
  subst ho
  rfl

/-- Witness for C7 at a concrete session. -/
theorem C7_witness :
    sessionOutcomes absW
        { mypy := true, mypy_files := false, mypy_ignore_missing_imports := false }
        [{ fspath := "a.py", ext := ".py" }]
        { stdout := "a.py:3: error: bad type", stderr := "", status := 1 } =
      sessionOutcomes absW
        { mypy := true, mypy_files := false, mypy_ignore_missing_imports := false }
        [{ fspath := "a.py", ext := ".py" }]
        { stdout := "a.py:3: error: bad type", stderr := "", status := 1 } :=
  C7_deterministic absW absW _ _ _ _ _ _ rfl rfl rfl rfl

/-- C9: a path is collected as a mypy file item iff its extension is `.py`
and at least one of the three flags is set; in particular
`--mypy-ignore-missing-imports` alone enables collection, and the checker is
then actually invoked on the collected file with the suppress flag. -/
theorem C9_collection_condition (cfg : Config) (p : Path)
    (out : CheckerOutput) :
    ((pytest_collect_file cfg p).isSome ↔
      (p.ext = ".py" ∧ (cfg.mypy = true ∨
        cfg.mypy_ignore_missing_imports = true ∨ cfg.mypy_files = true))) ∧
    pytest_collect_file
        { mypy := false, mypy_files := false, mypy_ignore_missing_imports := true }
        { fspath := "a.py", ext := ".py" } =
      some (Item.file { fspath := "a.py", mypy_errors := [] }) ∧
    (runSession (fun s => s)
        { mypy := false, mypy_files := false, mypy_ignore_missing_imports := true }
        [{ fspath := "a.py", ext := ".py" }] out).invocations =
      [["--ignore-missing-imports", "a.py"]] := by
  refine ⟨?_, by decide, rfl⟩
  unfold pytest_collect_file
  split
  · rename_i hcond
    simpa using hcond
  · rename_i hcond
    simpa using hcond

/-- C5: unattributable output lines are not dropped — whenever any exist,
they are all written (joined by newlines, hence verbatim) as one terminal
diagnostic, red when the exit status is non-zero and green when it is
zero. -/
theorem C5_unmatched_surfaced (abspath : String → String) (cfg : Config)
    (out : CheckerOutput) (items : List Item)
    (h : (pytest_runtestloop abspath cfg out items).unmatched ≠ []) :
    TermEvent.writeLine
        (String.intercalate "\n"
          (pytest_runtestloop abspath cfg out items).unmatched)
        (if out.status ≠ 0 then Color.red else Color.green) ∈
      (pytest_runtestloop abspath cfg out items).events := by
  by_cases hd : _mypy_file_items abspath items = []
  · exfalso
    apply h
    unfold pytest_runtestloop
    rw [if_pos hd]
  · rw [runtestloop_unmatched_eq abspath cfg out items hd] at h ⊢
    rw [runtestloop_events_eq abspath cfg out items hd]
    have hne := processStdout_unmatched_ne_empty abspath
      (_mypy_file_items abspath items) (items.map (setStatus out.status))
      out.stdout
    have hany : anyTruthy (processStdout abspath (_mypy_file_items abspath items)
        (items.map (setStatus out.status)) out.stdout).2 = true :=
      anyTruthy_of_ne_nil _ h hne
    simp [unmatchedEvents, hany, List.mem_append]

/-- Witness for C5: an unmatched line under a failing exit status is
surfaced in red. -/
theorem C5_witness :
    (pytest_runtestloop absW
        { mypy := true, mypy_files := false, mypy_ignore_missing_imports := false }
        { stdout := "garbage", stderr := "", status := 1 }
        [Item.file { fspath := "a.py", mypy_errors := [] }]).unmatched ≠ [] ∧
    TermEvent.writeLine
        (String.intercalate "\n"
          (pytest_runtestloop absW
            { mypy := true, mypy_files := false, mypy_ignore_missing_imports := false }
            { stdout := "garbage", stderr := "", status := 1 }
            [Item.file { fspath := "a.py", mypy_errors := [] }]).unmatched)
        (if ({ stdout := "garbage", stderr := "", status := 1 } :
            CheckerOutput).status ≠ 0 then Color.red else Color.green) ∈
      (pytest_runtestloop absW
        { mypy := true, mypy_files := false, mypy_ignore_missing_imports := false }
        { stdout := "garbage", stderr := "", status := 1 }
        [Item.file { fspath := "a.py", mypy_errors := [] }]).events :=
  ⟨by decide,
    C5_unmatched_surfaced absW
      { mypy := true, mypy_files := false, mypy_ignore_missing_imports := false }
      { stdout := "garbage", stderr := "", status := 1 }
      [Item.file { fspath := "a.py", mypy_errors := [] }] (by decide)⟩

/-- C6: when the checker actually ran, a non-empty stderr is surfaced (as
the final terminal write, in red); an empty stderr produces no write of its
own — the events are exactly the two progress writes plus at most the
unmatched-lines block. -/
theorem C6_stderr_surfaced (abspath : String → String) (cfg : Config)
    (out : CheckerOutput) (items : List Item)
    (h : _mypy_file_items abspath items ≠ []) :
    (out.stderr ≠ "" →
      (pytest_runtestloop abspath cfg out items).events.getLast? =
        some (TermEvent.writeLine out.stderr Color.red)) ∧
    (out.stderr = "" →
      (pytest_runtestloop abspath cfg out items).events.length =
        if anyTruthy (pytest_runtestloop abspath cfg out items).unmatched
        then 3 else 2) := by
  rw [runtestloop_events_eq abspath cfg out items h,
    runtestloop_unmatched_eq abspath cfg out items h]
  constructor
  · intro hs
    have hsE : stderrEvents out.stderr =
        [TermEvent.writeLine out.stderr Color.red] := by
      unfold stderrEvents
      rw [if_pos hs]
    rw [hsE]
    exact List.getLast?_concat _
  · intro hs
    have hsE : stderrEvents out.stderr = [] := by
      unfold stderrEvents
      rw [if_neg (show ¬out.stderr ≠ "" from by simp [hs])]
    rw [hsE]
    unfold unmatchedEvents
    by_cases hu : anyTruthy (processStdout abspath
        (_mypy_file_items abspath items) (items.map (setStatus out.status))
        out.stdout).2 = true
    · simp [hu]
    · simp [hu]

/-- Witness for C6: a non-empty stderr ends the terminal output in red. -/
theorem C6_witness :
    _mypy_file_items absW [Item.file { fspath := "a.py", mypy_errors := [] }] ≠ [] ∧
    (pytest_runtestloop absW
        { mypy := true, mypy_files := false, mypy_ignore_missing_imports := false }
        { stdout := "", stderr := "boom", status := 1 }
        [Item.file { fspath := "a.py", mypy_errors := [] }]).events.getLast? =
      some (TermEvent.writeLine "boom" Color.red) :=
  ⟨by decide,
    (C6_stderr_surfaced absW
      { mypy := true, mypy_files := false, mypy_ignore_missing_imports := false }
      { stdout := "", stderr := "boom", status := 1 }
      [Item.file { fspath := "a.py", mypy_errors := [] }] (by decide)).1
      (by decide)⟩

/-- C8: the checker is invoked at most once per session, and exactly once
iff at least one eligible file item was collected; with no file items it is
never invoked. -/
theorem C8_single_invocation (abspath : String → String) (cfg : Config)
    (paths : List Path) (out : CheckerOutput) :
    (runSession abspath cfg paths out).invocations.length ≤ 1 ∧
    ((runSession abspath cfg paths out).invocations.length = 1 ↔
      ∃ f, Item.file f ∈ paths.filterMap (pytest_collect_file cfg)) := by
  rw [runSession_eq]
  have hiff : _mypy_file_items abspath
      (pytest_collection_modifyitems abspath cfg
        (paths.filterMap (pytest_collect_file cfg))) ≠ [] ↔
      ∃ f, Item.file f ∈ paths.filterMap (pytest_collect_file cfg) := by
    rw [mypy_file_items_ne_nil_iff]
    exact exists_congr (fun f => mem_file_modifyitems abspath cfg _ f)
  by_cases hd : _mypy_file_items abspath
      (pytest_collection_modifyitems abspath cfg
        (paths.filterMap (pytest_collect_file cfg))) = []
  · have hinv : (pytest_runtestloop abspath cfg out
        (pytest_collection_modifyitems abspath cfg
          (paths.filterMap (pytest_collect_file cfg)))).invocations = [] := by
      unfold pytest_runtestloop
      rw [if_pos hd]
    rw [hinv]
    refine ⟨by simp, ?_⟩
    simp only [List.length_nil]
    constructor
    · intro h01
      exact absurd h01 (by decide)
    · intro hex
      exact absurd hd (hiff.mpr hex)
  · rw [runtestloop_invocations_eq abspath cfg out _ hd]
    refine ⟨by simp, ?_⟩
    constructor
    · intro _
      exact hiff.mp hd
    · intro _
      simp

/-- C2 counterexample: a session run with `--mypy` only (no `--mypy-files`),
where mypy exits with status 1 and emits an unattributable output line, has
no failing aggregate status check at all — the claim fails for these
command-line flags. -/
theorem C2_counterexample :
    (({ stdout := "garbage", stderr := "", status := 1 } :
        CheckerOutput).status ≠ 0) ∧
    (runSession absW
        { mypy := true, mypy_files := false, mypy_ignore_missing_imports := false }
        [{ fspath := "a.py", ext := ".py" }]
        { stdout := "garbage", stderr := "", status := 1 }).unmatched =
      ["garbage"] ∧
    hasFailingStatusItem
      (runSession absW
        { mypy := true, mypy_files := false, mypy_ignore_missing_imports := false }
        [{ fspath := "a.py", ext := ".py" }]
        { stdout := "garbage", stderr := "", status := 1 }).items = false := by
  decide

/-- C2 (amended): when the defer-file-selection flag `--mypy-files` is set —
the only configuration in which an aggregate status item exists — a session
that collected at least one file item and whose checker exited with a
non-zero status (here with unattributed output present) always contains a
failing aggregate status check. -/
theorem C2_status_item_fails (abspath : String → String) (cfg : Config)
    (paths : List Path) (out : CheckerOutput)
    (hflag : cfg.mypy_files = true)
    (hcollect : ∃ f, Item.file f ∈ paths.filterMap (pytest_collect_file cfg))
    (hstatus : out.status ≠ 0)
    (hun : (runSession abspath cfg paths out).unmatched ≠ []) :
    hasFailingStatusItem (runSession abspath cfg paths out).items = true := by
  rcases hcollect with ⟨f, hf⟩
  rw [runSession_eq]
  have hcoll_ne : _mypy_file_items abspath
      (paths.filterMap (pytest_collect_file cfg)) ≠ [] :=
    (mypy_file_items_ne_nil_iff _ _).mpr ⟨f, hf⟩
  have hmod : pytest_collection_modifyitems abspath cfg
      (paths.filterMap (pytest_collect_file cfg)) =
      paths.filterMap (pytest_collect_file cfg) ++
        [Item.status { mypy_status := none }] := by
    unfold pytest_collection_modifyitems
    rw [if_pos ⟨hflag, hcoll_ne⟩]
  rw [hmod]
  have hd2 : _mypy_file_items abspath
      (paths.filterMap (pytest_collect_file cfg) ++
        [Item.status { mypy_status := none }]) ≠ [] :=
    (mypy_file_items_ne_nil_iff _ _).mpr ⟨f, List.mem_append_left _ hf⟩
  rw [runtestloop_items_eq abspath cfg out _ hd2]
  have hidx : (paths.filterMap (pytest_collect_file cfg) ++
      [Item.status { mypy_status := none }])[(paths.filterMap
        (pytest_collect_file cfg)).length]? =
      some (Item.status { mypy_status := none }) :=
    List.getElem?_concat_length _ _
  have hidx1 : ((paths.filterMap (pytest_collect_file cfg) ++
      [Item.status { mypy_status := none }]).map
        (setStatus out.status))[(paths.filterMap
        (pytest_collect_file cfg)).length]? =
      some (Item.status { mypy_status := some out.status }) := by
    rw [List.getElem?_map, hidx]
    rfl
  have hidx2 := (processStdout_getElem_status abspath
    (_mypy_file_items abspath (paths.filterMap (pytest_collect_file cfg) ++
      [Item.status { mypy_status := none }]))
    ((paths.filterMap (pytest_collect_file cfg) ++
      [Item.status { mypy_status := none }]).map (setStatus out.status))
    out.stdout (paths.filterMap (pytest_collect_file cfg)).length
    { mypy_status := some out.status }).mpr hidx1
  have hmem : Item.status { mypy_status := some out.status } ∈
      (processStdout abspath
        (_mypy_file_items abspath (paths.filterMap (pytest_collect_file cfg) ++
          [Item.status { mypy_status := none }]))
        ((paths.filterMap (pytest_collect_file cfg) ++
          [Item.status { mypy_status := none }]).map (setStatus out.status))
        out.stdout).1 := by
    rcases List.getElem?_eq_some.mp hidx2 with ⟨hlt, he⟩
    exact he ▸ List.getElem_mem hlt
  apply List.any_eq_true.mpr
  refine ⟨Item.status { mypy_status := some out.status }, hmem, ?_⟩
  have hrt : MypyStatusItem.runtest { mypy_status := some out.status } =
      RunResult.raised (Excinfo.mypyError
        ("mypy exited with status " ++ toString out.status ++ ".")) := by
    unfold MypyStatusItem.runtest
    exact if_pos hstatus
  show (match MypyStatusItem.runtest { mypy_status := some out.status } with
    | RunResult.raised _ => true
    | RunResult.passed _ => false) = true
  rw [hrt]

/-- Witness for C2 (amended): under `--mypy-files` with one collected file,
exit status 1 and an unmatched line, the aggregate check fails. -/
theorem C2_witness :
    ({ mypy := false, mypy_files := true,
        mypy_ignore_missing_imports := false } : Config).mypy_files = true ∧
    (({ stdout := "garbage", stderr := "", status := 1 } :
        CheckerOutput).status ≠ 0) ∧
    (runSession absW
        { mypy := false, mypy_files := true, mypy_ignore_missing_imports := false }
        [{ fspath := "a.py", ext := ".py" }]
        { stdout := "garbage", stderr := "", status := 1 }).unmatched ≠ [] ∧
    hasFailingStatusItem
      (runSession absW
        { mypy := false, mypy_files := true, mypy_ignore_missing_imports := false }
        [{ fspath := "a.py", ext := ".py" }]
        { stdout := "garbage", stderr := "", status := 1 }).items = true := by
  refine ⟨rfl, by decide, by decide, ?_⟩
  exact C2_status_item_fails absW
    { mypy := false, mypy_files := true, mypy_ignore_missing_imports := false }
    [{ fspath := "a.py", ext := ".py" }]
    { stdout := "garbage", stderr := "", status := 1 }
    rfl ⟨{ fspath := "a.py", mypy_errors := [] }, by decide⟩ (by decide)
    (by decide)

/-- C10: any aggregate status item present in the final session items has
its status field set to the checker's exit status by the time `runtest`
runs, so the `assert self.mypy_status is not None` can never fail. -/
theorem C10_status_set_before_runtest (abspath : String → String)
    (cfg : Config) (paths : List Path) (out : CheckerOutput) (j : Nat)
    (s : MypyStatusItem)
    (h : (runSession abspath cfg paths out).items[j]? =
      some (Item.status s)) :
    s.mypy_status = some out.status ∧
    MypyStatusItem.runtest s ≠ RunResult.raised Excinfo.assertionError := by
  suffices hs : s.mypy_status = some out.status by
    exact ⟨hs, status_runtest_ne_assertion s out.status hs⟩
  rw [runSession_eq] at h
  by_cases hcond : cfg.mypy_files = true ∧ _mypy_file_items abspath
      (paths.filterMap (pytest_collect_file cfg)) ≠ []
  · have hmod : pytest_collection_modifyitems abspath cfg
        (paths.filterMap (pytest_collect_file cfg)) =
        paths.filterMap (pytest_collect_file cfg) ++
          [Item.status { mypy_status := none }] := by
      unfold pytest_collection_modifyitems
      rw [if_pos hcond]
    rw [hmod] at h
    have hd2 : _mypy_file_items abspath
        (paths.filterMap (pytest_collect_file cfg) ++
          [Item.status { mypy_status := none }]) ≠ [] := by
      rcases (mypy_file_items_ne_nil_iff _ _).mp hcond.2 with ⟨f, hf⟩
      exact (mypy_file_items_ne_nil_iff _ _).mpr
        ⟨f, List.mem_append_left _ hf⟩
    rw [runtestloop_items_eq abspath cfg out _ hd2] at h
    have h1 := (processStdout_getElem_status abspath _ _ out.stdout j s).mp h
    rw [List.getElem?_map] at h1
    rcases Option.map_eq_some'.mp h1 with ⟨it, _, hset⟩
    cases it with
    | file f =>
        exact absurd hset (by simp [setStatus])
    | status s0 =>
        simp only [setStatus] at hset
        injection hset with h2
        rw [← h2]
  · have hmod : pytest_collection_modifyitems abspath cfg
        (paths.filterMap (pytest_collect_file cfg)) =
        paths.filterMap (pytest_collect_file cfg) := by
      unfold pytest_collection_modifyitems
      rw [if_neg hcond]
    rw [hmod] at h
    by_cases hd : _mypy_file_items abspath
        (paths.filterMap (pytest_collect_file cfg)) = []
    · have hitems : (pytest_runtestloop abspath cfg out
          (paths.filterMap (pytest_collect_file cfg))).items =
          paths.filterMap (pytest_collect_file cfg) := by
        unfold pytest_runtestloop
        rw [if_pos hd]
      rw [hitems] at h
      have hmem : Item.status s ∈ paths.filterMap (pytest_collect_file cfg) := by
        rcases List.getElem?_eq_some.mp h with ⟨hlt, he⟩
        exact he ▸ List.getElem_mem hlt
      rcases collect_mem_file cfg paths _ hmem with ⟨f, hfe⟩
      exact absurd hfe (by simp)
    · rw [runtestloop_items_eq abspath cfg out _ hd] at h
      have h1 := (processStdout_getElem_status abspath _ _ out.stdout j s).mp h
      rw [List.getElem?_map] at h1
      rcases Option.map_eq_some'.mp h1 with ⟨it, hit, hset⟩
      have hmem : it ∈ paths.filterMap (pytest_collect_file cfg) := by
        rcases List.getElem?_eq_some.mp hit with ⟨hlt, he⟩
        exact he ▸ List.getElem_mem hlt
      rcases collect_mem_file cfg paths _ hmem with ⟨f, hfe⟩
      subst hfe
      exact absurd hset (by simp [setStatus])

/-- Witness for C10: under `--mypy-files`, the appended status item holds
the exit status when its check runs, and the assertion cannot fire. -/
theorem C10_witness :
    ((runSession absW
        { mypy := false, mypy_files := true, mypy_ignore_missing_imports := false }
        [{ fspath := "a.py", ext := ".py" }]
        { stdout := "", stderr := "", status := 0 }).items[1]? =
      some (Item.status { mypy_status := some 0 })) ∧
    ({ mypy_status := some 0 } : MypyStatusItem).mypy_status =
      some ({ stdout := "", stderr := "", status := 0 } :
        CheckerOutput).status ∧
    MypyStatusItem.runtest { mypy_status := some 0 } ≠
      RunResult.raised Excinfo.assertionError := by
  refine ⟨by decide, ?_, ?_⟩
  · exact (C10_status_set_before_runtest absW
      { mypy := false, mypy_files := true, mypy_ignore_missing_imports := false }
      [{ fspath := "a.py", ext := ".py" }]
      { stdout := "", stderr := "", status := 0 } 1
      { mypy_status := some 0 } (by decide)).1
  · exact (C10_status_set_before_runtest absW
      { mypy := false, mypy_files := true, mypy_ignore_missing_imports := false }
      [{ fspath := "a.py", ext := ".py" }]
      { stdout := "", stderr := "", status := 0 } 1
      { mypy_status := some 0 } (by decide)).2

end PytestMypy
